import Mathlib

/-!
Shallow embedding of the sports-fashion-analytics data pipeline.

The embedding covers the two source files that carry the pipeline logic:

- src/data_processing/process_data.py: the DataProcessor class with the
  demographic reshaper (load_tenniscore_sales), the market merger
  (load_market_data), the summary deriver (create_summary_stats) and the
  driver (process_all).
- src/data_collection/collect_trends.py: the synthetic generator
  (generate_sample_data).

Modelling conventions:

- A pandas DataFrame is a list of rows; a row is a structure whose fields
  are the columns.  A cell that can be NaN or missing is an Option.
- Floats are modelled as rationals; Python int() is truncation toward
  zero on rationals (int_trunc below).
- Dates are day numbers with day 0 = 2023-01-01.  Relevant constants:
  2024-04-01 = 456, 2024-04-26 = 481, 2024-08-01 = 578,
  2026-01-01 = 1096, 2026-02-01 = 1127, 2026-06-11 = 1257.
- Reading a CSV file is fallible (pandas raises when the file is absent);
  a raw input is therefore passed as an Option and read_csv turns a
  missing file into an error, all other per-step failures in the
  processor are IndexError from iloc[0] on an empty selection, modelled
  as RowNotFound.
-/

namespace SportsFashion

/-- Errors raised by the processor: a missing input file (pandas read_csv
raises FileNotFoundError) and a failed positional lookup (iloc[0] on an
empty selection raises IndexError, the RowNotFound of the spec). -/
inductive Err where
  | FileNotFound : Err
  | RowNotFound : Err
  deriving DecidableEq

/-- A row of the raw tenniscore sales table.  Every cell may be missing
(NaN), which pandas permits in any column. -/
structure RawSalesRow where
  category : Option String
  item : Option String
  yoy_growth_pct : Option ℚ
  gen_z_growth_pct : Option ℚ
  millennial_growth_pct : Option ℚ
  gen_x_growth_pct : Option ℚ
  baby_boomer_growth_pct : Option ℚ
  deriving DecidableEq

/-- A row of the melted (long-form) demographic table produced by
load_tenniscore_sales. -/
structure LongRow where
  category : Option String
  item : Option String
  yoy_growth_pct : Option ℚ
  demographic : String
  demo_growth_pct : Option ℚ
  deriving DecidableEq

/-- The four demographic columns, in source declaration order
(process_data.py line 21). -/
def demo_cols : List String :=
  ["gen_z_growth_pct", "millennial_growth_pct", "gen_x_growth_pct",
   "baby_boomer_growth_pct"]

/-- Value of a named demographic column in a raw sales row. -/
def rawColumn (r : RawSalesRow) (c : String) : Option ℚ :=
  if c = "gen_z_growth_pct" then r.gen_z_growth_pct
  else if c = "millennial_growth_pct" then r.millennial_growth_pct
  else if c = "gen_x_growth_pct" then r.gen_x_growth_pct
  else if c = "baby_boomer_growth_pct" then r.baby_boomer_growth_pct
  else none

/-- One melted row: the id_vars are carried over, var_name holds the
column name, value_name holds that column's cell. -/
def meltRow (c : String) (r : RawSalesRow) : LongRow :=
  { category := r.category
  , item := r.item
  , yoy_growth_pct := r.yoy_growth_pct
  , demographic := c
  , demo_growth_pct := rawColumn r c }

/-- df.melt(id_vars=[category, item, yoy_growth_pct], value_vars=demo_cols):
pandas melt emits, for each value column in declaration order, the whole
frame in input row order (variable-major, np.tile of the ids and a
column-major ravel of the values). -/
def melt (df : List RawSalesRow) : List LongRow :=
  demo_cols.flatMap (fun c => df.map (meltRow c))

/-- Python str.replace of the fixed pattern _growth_pct by the empty
string.  On the melted demographic names the pattern occurs exactly once,
as a suffix, so the replacement is suffix removal.  (String.replace of
core Lean is not kernel-reducible, hence this executable equivalent.) -/
def strip_growth (s : String) : String :=
  if "_growth_pct".data.isSuffixOf s.data then
    { data := s.data.take (s.data.length - "_growth_pct".data.length) }
  else s

/-- Cleaning step of load_tenniscore_sales (line 31): strip the
_growth_pct suffix from the demographic name. -/
def cleanDemo (row : LongRow) : LongRow :=
  { row with demographic := strip_growth row.demographic }

/-- Predicate of pandas dropna() on the melted frame: the row is kept iff
no cell of the row is missing.  The demographic column is a generated
string and is never missing; the other four columns can each be NaN. -/
def keepRow (row : LongRow) : Bool :=
  row.category.isSome && row.item.isSome && row.yoy_growth_pct.isSome &&
    row.demo_growth_pct.isSome

/-- DataProcessor.load_tenniscore_sales (lines 16-36): melt the four
demographic columns, clean the demographic names, then dropna. -/
def load_tenniscore_sales (df : List RawSalesRow) : List LongRow :=
  ((melt df).map cleanDemo).filter keepRow

/-- A yearly market table: a fixed number of non-key columns (width) and
one row per year carrying the year key and the non-key cells. -/
structure MarketTableIn where
  width : ℕ
  rows : List (ℤ × List (Option ℚ))
  deriving DecidableEq

/-- A row of the merged market table: the year key, the non-key cells
coming from the left input and the non-key cells coming from the right
input (pandas suffixes clashing names, so the two cell blocks stay
disjoint). -/
structure MergedRow where
  year : ℤ
  left : List (Option ℚ)
  right : List (Option ℚ)
  deriving DecidableEq

/-- Keys of a full outer join on year: pandas how='outer' uses the union
of the keys of both frames and sorts them ascending. -/
def mergedYears (a b : MarketTableIn) : List ℤ :=
  List.insertionSort (· ≤ ·)
    ((a.rows.map Prod.fst ++ b.rows.map Prod.fst).dedup)

/-- Cells contributed by one input for a given year: the matching row's
cells, or a full row of nulls when the year is absent from this input
(pandas NaN-fills the columns of the non-matching side). -/
def sideVals (t : MarketTableIn) (y : ℤ) : List (Option ℚ) :=
  match t.rows.find? (fun r => decide (r.1 = y)) with
  | some r => r.2
  | none => List.replicate t.width none

/-- DataProcessor.load_market_data (lines 38-46):
pd.merge(sportswear, jersey, on='year', how='outer'). -/
def load_market_data (sportswear jersey : MarketTableIn) : List MergedRow :=
  (mergedYears sportswear jersey).map
    (fun y => ⟨y, sideVals sportswear y, sideVals jersey y⟩)

/-- A row of the Google Trends table as used by the summary deriver: a
parsed date and the two numeric columns the summary reads. -/
structure TrendsRow where
  date : ℤ
  tenniscore : ℚ
  soccer_jersey : ℚ
  deriving DecidableEq

/-- The single summary row built by create_summary_stats.  Fields that
come from a reduction that can be empty (max or mean of an empty
selection is NaN in pandas) are Options, with none standing for NaN. -/
structure SummaryRow where
  tenniscore_peak_growth : Option ℚ
  market_2024_billion : Option ℚ
  market_2033_billion : Option ℚ
  market_growth_rate : ℚ
  tenniscore_search_peak : Option ℚ
  soccer_jersey_trend_current : Option ℚ
  challengers_media_value_million : ℚ
  deriving DecidableEq

/-- The market_value_billion_usd column of a merged market row: it is the
first non-key column of the sportswear-side input
(womens_sportswear_market.csv), hence the first left cell. -/
def market_value_billion_usd (r : MergedRow) : Option ℚ :=
  r.left.headD none

/-- tenniscore.nlargest(5, 'yoy_growth_pct') (line 65): rows with a
non-NaN yoy_growth_pct, sorted descending on that column, first five. -/
def nlargest_by_yoy (tc : List LongRow) : List LongRow :=
  (List.insertionSort
      (fun a b => (b.yoy_growth_pct.getD 0) ≤ (a.yoy_growth_pct.getD 0))
      (tc.filter (fun r => r.yoy_growth_pct.isSome))).take 5

/-- trends[trends['date'] >= '2026-01-01']['soccer_jersey'].mean()
(line 75): the mean of the soccer_jersey column over the rows dated on or
after day 1096 = 2026-01-01; the mean of an empty selection is NaN. -/
def current_soccer (trends : List TrendsRow) : Option ℚ :=
  let current := trends.filter (fun r => decide ((1096 : ℤ) ≤ r.date))
  if current.isEmpty then none
  else some ((current.map (fun r => r.soccer_jersey)).sum / current.length)

/-- Core of DataProcessor.create_summary_stats (lines 63-87), taking the
three already-loaded tables.  Each iloc[0] on a possibly-empty selection
is a RowNotFound failure point, checked in source order: the top sales
row first, then the year-2024 market row, then the year-2033 market
row. -/
def summary_core (tenniscore : List LongRow) (market : List MergedRow)
    (trends : List TrendsRow) : Except Err SummaryRow :=
  match (nlargest_by_yoy tenniscore).head? with
  | none => .error .RowNotFound
  | some top =>
    match market.find? (fun r => decide (r.year = 2024)) with
    | none => .error .RowNotFound
    | some latest_market =>
      match market.find? (fun r => decide (r.year = 2033)) with
      | none => .error .RowNotFound
      | some projected_2033 =>
        .ok { tenniscore_peak_growth := top.yoy_growth_pct
            , market_2024_billion := market_value_billion_usd latest_market
            , market_2033_billion := market_value_billion_usd projected_2033
            , market_growth_rate := 7
            , tenniscore_search_peak := (trends.map (fun r => r.tenniscore)).max?
            , soccer_jersey_trend_current := current_soccer trends
            , challengers_media_value_million := 85 / 2 }

/-- A row of the Challengers impact table, passed through unchanged: a
parsed date plus the impact cells. -/
structure ChallengersRow where
  date : ℤ
  vals : List (Option ℚ)
  deriving DecidableEq

/-- pd.read_csv on a file that may be absent: a missing file raises
FileNotFoundError, otherwise the parsed table is returned. -/
def read_csv {α : Type} (file : Option α) : Except Err α :=
  match file with
  | none => .error .FileNotFound
  | some df => .ok df

/-- load_tenniscore_sales including its read_csv of tenniscore_sales.csv. -/
def load_tenniscore_sales_io (salesIn : Option (List RawSalesRow)) :
    Except Err (List LongRow) :=
  (read_csv salesIn).map load_tenniscore_sales

/-- load_market_data including its two read_csv calls. -/
def load_market_data_io (spIn jIn : Option MarketTableIn) :
    Except Err (List MergedRow) := do
  let sportswear ← read_csv spIn
  let jersey ← read_csv jIn
  return load_market_data sportswear jersey

/-- load_trends_data (lines 48-52): read the CSV, dates already parsed in
the embedding. -/
def load_trends_data_io (trIn : Option (List TrendsRow)) :
    Except Err (List TrendsRow) :=
  read_csv trIn

/-- load_challengers_impact (lines 54-58). -/
def load_challengers_impact_io (chIn : Option (List ChallengersRow)) :
    Except Err (List ChallengersRow) :=
  read_csv chIn

/-- create_summary_stats (lines 60-87): it re-reads its inputs via the
load methods, then derives the summary row. -/
def create_summary_stats_io (salesIn : Option (List RawSalesRow))
    (spIn jIn : Option MarketTableIn) (trIn : Option (List TrendsRow)) :
    Except Err SummaryRow := do
  let tenniscore ← load_tenniscore_sales_io salesIn
  let market ← load_market_data_io spIn jIn
  let trends ← load_trends_data_io trIn
  summary_core tenniscore market trends

/-- The five processed tables returned by process_all on full success. -/
structure ProcessedOutputs where
  tenniscore : List LongRow
  market : List MergedRow
  trends : List TrendsRow
  challengers : List ChallengersRow
  summary : SummaryRow
  deriving DecidableEq

/-- File names written by process_all, in write order. -/
def processedFiles : List String :=
  ["tenniscore_processed.csv", "market_combined.csv",
   "trends_processed.csv", "challengers_processed.csv",
   "summary_stats.csv"]

/-- DataProcessor.process_all (lines 89-120): the five derivations run
strictly in sequence, each one writing its CSV on success; an uncaught
exception at any step aborts the run, so the files written so far stay on
disk and no later step is attempted.  The first component is the list of
files written, the second the final outcome. -/
def process_all (salesIn : Option (List RawSalesRow))
    (spIn jIn : Option MarketTableIn) (trIn : Option (List TrendsRow))
    (chIn : Option (List ChallengersRow)) :
    List String × Except Err ProcessedOutputs :=
  match load_tenniscore_sales_io salesIn with
  | .error e => ([], .error e)
  | .ok tenniscore =>
    match load_market_data_io spIn jIn with
    | .error e => (["tenniscore_processed.csv"], .error e)
    | .ok market =>
      match load_trends_data_io trIn with
      | .error e =>
        (["tenniscore_processed.csv", "market_combined.csv"], .error e)
      | .ok trends =>
        match load_challengers_impact_io chIn with
        | .error e =>
          (["tenniscore_processed.csv", "market_combined.csv",
            "trends_processed.csv"], .error e)
        | .ok challengers =>
          match create_summary_stats_io salesIn spIn jIn trIn with
          | .error e =>
            (["tenniscore_processed.csv", "market_combined.csv",
              "trends_processed.csv", "challengers_processed.csv"],
             .error e)
          | .ok summary =>
            (processedFiles,
             .ok ⟨tenniscore, market, trends, challengers, summary⟩)

/-- The outcome of an Except, keeping only the error. -/
def errOf {α : Type} : Except Err α → Option Err
  | .error e => some e
  | .ok _ => none

/-- Python int() on a rational: truncation toward zero.  A rational is a
normalized num/den pair with positive denominator, so truncating division
of the numerator by the denominator is exactly int(). -/
def int_trunc (q : ℚ) : ℤ :=
  q.num.tdiv q.den

/-- pd.date_range('2023-01-01', '2026-02-01', freq='W'): 2023-01-01 is a
Sunday, so the grid is every seventh day from day 0 through day
1127 = 2026-02-01, giving 162 dates. -/
def dateGrid : List ℤ :=
  (List.range 162).map (fun k => (7 : ℤ) * k)

/-- Tenniscore value before int(): baseline 20, plus inside the window
2024-04-01 .. 2024-08-01 (days 456 .. 578) a parabolic bump of height 60
centered on 2024-04-26 (day 481) with a 120-day half-width, the whole
clamped from below at the baseline (collect_trends.py lines 82-88). -/
def tenniscore_val (d : ℤ) : ℚ :=
  let boost : ℚ :=
    if 456 ≤ d ∧ d ≤ 578 then 60 * (1 - (((d : ℚ) - 481) / 120) ^ 2) else 0
  max (20 + boost) 20

/-- Soccer jersey value before int(): baseline 30 plus a linear ramp to
+50 during the 365 days before 2026-06-11 (day 1257)
(collect_trends.py lines 91-98). -/
def soccer_val (d : ℤ) : ℚ :=
  let days_to_wc : ℤ := 1257 - d
  if days_to_wc < 365 then 30 + 50 * (1 - (days_to_wc : ℚ) / 365) else 30

/-- Womens activewear value before int(): baseline 40 plus one unit per
30 elapsed days since day 0 (collect_trends.py lines 101-103). -/
def womens_val (d : ℤ) : ℚ :=
  40 + (d : ℚ) / 30

/-- A row emitted by generate_sample_data: every numeric column is an
int() of a rational-valued formula (collect_trends.py lines 105-113). -/
structure SampleRow where
  date : ℤ
  tenniscore : ℤ
  tennis_skirt : ℤ
  soccer_jersey : ℤ
  football_kit : ℤ
  womens_activewear : ℤ
  category : String
  deriving DecidableEq

/-- The generated sample row for one date of the grid. -/
def sampleRow (d : ℤ) : SampleRow :=
  { date := d
  , tenniscore := int_trunc (tenniscore_val d)
  , tennis_skirt := int_trunc (tenniscore_val d * (4 / 5))
  , soccer_jersey := int_trunc (soccer_val d)
  , football_kit := int_trunc (soccer_val d * (7 / 10))
  , womens_activewear := int_trunc (womens_val d)
  , category := "search_trends" }

/-- generate_sample_data (lines 72-119): one row per date of the weekly
grid. -/
def generate_sample_data : List SampleRow :=
  dateGrid.map sampleRow

/-- Stated from the claim wording of C2: the asserted row-major ordering,
one block of four demographic rows per input row.  Used only to compare
against the ordering the code actually produces. -/
def rowMajorReshape (df : List RawSalesRow) : List LongRow :=
  (df.flatMap (fun r => demo_cols.map (fun c => cleanDemo (meltRow c r)))).filter
    keepRow

/-- One demographic block of the reshaper output: the input rows whose
pass-through cells and whose cell for this demographic are all present,
in input order, rendered as long rows with the cleaned demographic
name.  This is the building block of the corrected ordering statement. -/
def demoBlock (name : String) (value : RawSalesRow → Option ℚ)
    (df : List RawSalesRow) : List LongRow :=
  (df.filter (fun r =>
      r.category.isSome && r.item.isSome && r.yoy_growth_pct.isSome &&
        (value r).isSome)).map
    (fun r => ⟨r.category, r.item, r.yoy_growth_pct, name, value r⟩)

/-- Row builder of one demographic block: one long row from one raw row,
carrying the cleaned demographic name. -/
def bldLong (name : String) (acc : RawSalesRow → Option ℚ)
    (r : RawSalesRow) : LongRow :=
  ⟨r.category, r.item, r.yoy_growth_pct, name, acc r⟩

/-- Grouping key of the re-pivot: the three pass-through columns. -/
structure WideKey where
  category : Option String
  item : Option String
  yoy_growth_pct : Option ℚ
  deriving DecidableEq

/-- Key of a long row. -/
def keyOf (row : LongRow) : WideKey :=
  ⟨row.category, row.item, row.yoy_growth_pct⟩

/-- Key of a raw row. -/
def rawKey (r : RawSalesRow) : WideKey :=
  ⟨r.category, r.item, r.yoy_growth_pct⟩

/-- Pointwise zip of four lists, used to spread the four demographic
value sequences of one group back into wide rows. -/
def zip4 {α : Type} : List α → List α → List α → List α →
    List (α × α × α × α)
  | a :: as, b :: bs, c :: cs, d :: ds => (a, b, c, d) :: zip4 as bs cs ds
  | _, _, _, _ => []

/-- Values of one demographic within one group of the long table, in
table order. -/
def groupVals (ml : List LongRow) (k : WideKey) (name : String) :
    List (Option ℚ) :=
  (ml.filter (fun row => decide (keyOf row = k) && decide (row.demographic = name))).map
    (fun row => row.demo_growth_pct)

/-- Stated from the claim wording of C5: re-pivot the long table by
grouping on the pass-through columns and spreading the demographic
values, in source declaration order of the demographics, back into wide
rows. -/
def repivot (ml : List LongRow) : List RawSalesRow :=
  ((ml.map keyOf).dedup).flatMap (fun k =>
    (zip4 (groupVals ml k "gen_z") (groupVals ml k "millennial")
        (groupVals ml k "gen_x") (groupVals ml k "baby_boomer")).map
      (fun v => ⟨k.category, k.item, k.yoy_growth_pct, v.1, v.2.1, v.2.2.1,
        v.2.2.2⟩))

/-- A raw sales row with no missing cell in any column. -/
def allPresent (r : RawSalesRow) : Bool :=
  r.category.isSome && r.item.isSome && r.yoy_growth_pct.isSome &&
    r.gen_z_growth_pct.isSome && r.millennial_growth_pct.isSome &&
    r.gen_x_growth_pct.isSome && r.baby_boomer_growth_pct.isSome

/-- A raw sales row whose four demographic cells are all present (the
hypothesis of the round-trip law as the claim states it). -/
def demosPresent (r : RawSalesRow) : Bool :=
  r.gen_z_growth_pct.isSome && r.millennial_growth_pct.isSome &&
    r.gen_x_growth_pct.isSome && r.baby_boomer_growth_pct.isSome

/-- Stated from the claim wording of C9: the arithmetic mean of the
soccer_jersey column over exactly the rows dated on or after
2026-01-01 (day 1096), undefined (none, standing for NaN) when no row
matches. -/
def meanSoccerAfterCutoff (trends : List TrendsRow) : Option ℚ :=
  let rows := trends.filter (fun r => decide ((1096 : ℤ) ≤ r.date))
  if rows = [] then none
  else some ((rows.map (fun r => r.soccer_jersey)).sum / rows.length)

/-! Concrete inputs used by scenario conjuncts, witnesses and
counterexamples. -/

/-- Scenario sales table of the spec: three rows, exactly one null
gen_x_growth_pct and no other nulls. -/
def scenarioSales : List RawSalesRow :=
  [⟨some "tenniscore", some "tennis skirt", some 15, some 1, some 2, some 3, some 4⟩,
   ⟨some "tenniscore", some "tennis dress", some 25, some 5, some 6, none, some 8⟩,
   ⟨some "tenniscore", some "visor", some 35, some 9, some 10, some 11, some 12⟩]

/-- Sales row with a missing yoy_growth_pct but all four demographic
cells present. -/
def cxSalesRow : RawSalesRow :=
  ⟨some "tenniscore", some "polo", none, some 1, some 2, some 3, some 4⟩

/-- Two distinct all-present sales rows, enough to separate row-major
from column-major ordering. -/
def cx2Sales : List RawSalesRow :=
  [⟨some "tenniscore", some "tennis skirt", some 15, some 1, some 2, some 3, some 4⟩,
   ⟨some "tenniscore", some "tennis dress", some 25, some 5, some 6, some 7, some 8⟩]

/-- Scenario sportswear market table: years 2023, 2024, 2033, one value
column. -/
def spScenario : MarketTableIn :=
  ⟨1, [(2023, [some 3]), (2024, [some 4]), (2033, [some 8])]⟩

/-- Scenario jersey market table: years 2024, 2025, two value columns. -/
def jScenario : MarketTableIn :=
  ⟨2, [(2024, [some 1, some 2]), (2025, [some 5, none])]⟩

/-- The merged scenario market table. -/
def mkScenario : List MergedRow :=
  load_market_data spScenario jScenario

/-- A single clean long-form sales row. -/
def lrScenario : LongRow :=
  ⟨some "tenniscore", some "tennis skirt", some 15, "gen_z", some 1⟩

/-- A trends row dated before the 2026-01-01 cutoff. -/
def trOld : TrendsRow :=
  ⟨1000, 50, 31⟩

/-- The summary row produced on the scenario inputs with one clean sales
row, the merged scenario market table and an empty trends table. -/
def sC9 : SummaryRow :=
  ⟨some 15, some 4, some 8, 7, none, none, 85 / 2⟩

/-- A one-row Challengers impact table. -/
def chScenario : List ChallengersRow :=
  [⟨5, [some 1]⟩]

/-! Helper lemmas shared by several claims. -/

/-- One melted block after cleaning and dropna: the rows of the input
whose pass-through cells and this demographic cell are present, rendered
with the cleaned demographic name. -/
theorem melt_block (c name : String) (acc : RawSalesRow → Option ℚ)
    (hacc : ∀ r, rawColumn r c = acc r) (hname : strip_growth c = name)
    (df : List RawSalesRow) :
    ((df.map (meltRow c)).map cleanDemo).filter keepRow =
      demoBlock name acc df := by
  simp only [List.map_map, List.filter_map, demoBlock]
  have h1 : ∀ r : RawSalesRow,
      (keepRow ∘ (cleanDemo ∘ meltRow c)) r =
        (r.category.isSome && r.item.isSome && r.yoy_growth_pct.isSome &&
          (acc r).isSome) := by
    intro r
    simp only [Function.comp, keepRow, cleanDemo, meltRow, hacc r]
  rw [List.filter_congr (fun r _ => h1 r)]
  apply List.map_congr_left
  intro r hr
  simp only [Function.comp, cleanDemo, meltRow, hacc r, hname]

/-- The reshaper output, decomposed: pandas melt is variable-major, so
the output is one block per demographic column, in declaration order,
each block holding the surviving input rows in input order. -/
theorem load_eq_blocks (df : List RawSalesRow) :
    load_tenniscore_sales df =
      demoBlock "gen_z" (fun r => r.gen_z_growth_pct) df ++
      demoBlock "millennial" (fun r => r.millennial_growth_pct) df ++
      demoBlock "gen_x" (fun r => r.gen_x_growth_pct) df ++
      demoBlock "baby_boomer" (fun r => r.baby_boomer_growth_pct) df := by
  simp only [load_tenniscore_sales, melt, demo_cols, List.flatMap_cons,
    List.flatMap_nil, List.append_nil, List.map_append, List.filter_append]
  rw [melt_block "gen_z_growth_pct" "gen_z" (fun r => r.gen_z_growth_pct)
        (fun r => rfl) (by decide),
      melt_block "millennial_growth_pct" "millennial"
        (fun r => r.millennial_growth_pct) (fun r => rfl) (by decide),
      melt_block "gen_x_growth_pct" "gen_x" (fun r => r.gen_x_growth_pct)
        (fun r => rfl) (by decide),
      melt_block "baby_boomer_growth_pct" "baby_boomer"
        (fun r => r.baby_boomer_growth_pct) (fun r => rfl) (by decide)]
  simp [List.append_assoc]

/-- Truncation toward zero agrees with the floor on nonnegative
rationals. -/
theorem int_trunc_of_nonneg (q : ℚ) (h : 0 ≤ q) : int_trunc q = ⌊q⌋ := by
  have hn : 0 ≤ q.num := Rat.num_nonneg.mpr h
  have hd : (0 : ℤ) ≤ (q.den : ℤ) := Int.ofNat_nonneg q.den
  unfold int_trunc
  rw [Int.tdiv_eq_ediv hn hd, Rat.floor_def]

/-- Lower bound for int() of a rational that is at least the (integer)
bound. -/
theorem le_int_trunc (n : ℤ) (q : ℚ) (h : (n : ℚ) ≤ q) (hq : 0 ≤ q) :
    n ≤ int_trunc q := by
  rw [int_trunc_of_nonneg q hq]
  exact Int.le_floor.mpr h

set_option maxRecDepth 4000 in
/-- Membership in the weekly grid bounds the day number. -/
theorem dateGrid_bounds (d : ℤ) (h : d ∈ dateGrid) : 0 ≤ d ∧ d ≤ 1127 := by
  have hall : ∀ e ∈ dateGrid, 0 ≤ e ∧ e ≤ 1127 := by decide
  exact hall d h

/-! Claim C1. -/

/-- C1 (corrected): the reshaper output has 4 times the input row count
minus the number of emitted (melted) rows with a missing cell in any of
the four remaining columns, not merely those whose demo_growth_pct is
missing; in particular the 3-row scenario with exactly one null
gen_x_growth_pct yields 11 rows. -/
theorem claim_C1 :
    (∀ df : List RawSalesRow,
      (load_tenniscore_sales df).length =
        4 * df.length -
          ((melt df).filter (fun row => ! keepRow row)).length) ∧
    (load_tenniscore_sales scenarioSales).length = 11 := by
  constructor
  · intro df
    have hmelt : (melt df).length = 4 * df.length := by
      simp only [melt, demo_cols, List.flatMap_cons, List.flatMap_nil,
        List.append_nil, List.length_append, List.length_map]
      omega
    have hload : (load_tenniscore_sales df).length =
        ((melt df).filter keepRow).length := by
      simp only [load_tenniscore_sales, List.filter_map, List.length_map]
      congr 1
    have hsplit := List.length_eq_length_filter_add (l := melt df) keepRow
    omega
  · decide

/-- C1 counterexample: a one-row input whose yoy_growth_pct is null but
whose four demographic cells are all present.  The claim predicts
4 output rows (no emitted row has a missing demo_growth_pct), but
dropna() drops on every column, so the output is empty. -/
theorem claim_C1_counterexample :
    ¬ ((load_tenniscore_sales [cxSalesRow]).length =
        4 * [cxSalesRow].length -
          ((melt [cxSalesRow]).filter
            (fun row => ! row.demo_growth_pct.isSome)).length) := by
  decide

/-! Claim C2. -/

/-- C2 (corrected): the reshaper output is not row-major but
variable-major, as pandas melt is: all gen_z rows first (in input row
order), then all millennial rows, then all gen_x rows, then all
baby_boomer rows, each block filtered by the dropna policy. -/
theorem claim_C2 (df : List RawSalesRow) :
    load_tenniscore_sales df =
      demoBlock "gen_z" (fun r => r.gen_z_growth_pct) df ++
      demoBlock "millennial" (fun r => r.millennial_growth_pct) df ++
      demoBlock "gen_x" (fun r => r.gen_x_growth_pct) df ++
      demoBlock "baby_boomer" (fun r => r.baby_boomer_growth_pct) df :=
  load_eq_blocks df

/-- C2 counterexample: on a two-row input with no missing cells the
reshaper output differs from the row-major ordering the claim asserts
(the second output row is already the second input row's gen_z row, not
the first input row's millennial row). -/
theorem claim_C2_counterexample :
    load_tenniscore_sales cx2Sales ≠ rowMajorReshape cx2Sales ∧
      cx2Sales.all allPresent = true := by
  constructor
  · decide
  · decide

/-! Claim C8. -/

/-- C8 (confirmed): at the fixed center date (day 481 = 2024-04-26) the
generated tenniscore value is baseline + 60 = 80, and on any grid date
more than 120 days away from the center the value is exactly the
baseline 20. -/
theorem claim_C8 (d : ℤ) :
    (d = 481 → (sampleRow d).tenniscore = 80) ∧
      (d ∈ dateGrid → (d < 361 ∨ 601 < d) → (sampleRow d).tenniscore = 20) := by
  constructor
  · rintro rfl
    show int_trunc (tenniscore_val 481) = 80
    have h : tenniscore_val 481 = 80 := by
      simp only [tenniscore_val]
      norm_num
    rw [h]
    decide
  · intro hmem hside
    show int_trunc (tenniscore_val d) = 20
    have hcond : ¬ ((456 : ℤ) ≤ d ∧ d ≤ 578) := by omega
    have h : tenniscore_val d = 20 := by
      simp only [tenniscore_val, if_neg hcond]
      norm_num
    rw [h]
    decide

set_option maxRecDepth 4000 in
/-- C8 witness: the formula value at the center day, and a concrete grid
date (day 630) more than 120 days after the center with the baseline
value. -/
theorem claim_C8_witness :
    (sampleRow 481).tenniscore = 80 ∧
      ((630 : ℤ) ∈ dateGrid ∧ (sampleRow 630).tenniscore = 20) :=
  ⟨(claim_C8 481).1 rfl, by decide, (claim_C8 630).2 (by decide) (by decide)⟩

/-! Claim C10. -/

/-- C10 (confirmed): on every grid date the generated integer columns
(all of them int() truncations of the rational formulas by construction)
respect the baselines: tenniscore at least 20, soccer_jersey at least
30, womens_activewear at least 40. -/
theorem claim_C10 (d : ℤ) (hd : d ∈ dateGrid) :
    20 ≤ (sampleRow d).tenniscore ∧ 30 ≤ (sampleRow d).soccer_jersey ∧
      40 ≤ (sampleRow d).womens_activewear := by
  obtain ⟨hd0, hd1⟩ := dateGrid_bounds d hd
  refine ⟨?_, ?_, ?_⟩
  · have hv : (20 : ℚ) ≤ tenniscore_val d := le_max_right _ _
    exact le_int_trunc 20 (tenniscore_val d) (by exact_mod_cast hv)
      (le_trans (by norm_num) hv)
  · have hv : (30 : ℚ) ≤ soccer_val d := by
      simp only [soccer_val]
      split_ifs with h
      · have hq : ((1257 - d : ℤ) : ℚ) < 365 := by exact_mod_cast h
        have h1 : ((1257 - d : ℤ) : ℚ) / 365 ≤ 1 := by
          rw [div_le_one (by norm_num)]
          linarith
        nlinarith
      · exact le_refl 30
    exact le_int_trunc 30 (soccer_val d) (by exact_mod_cast hv)
      (le_trans (by norm_num) hv)
  · have hv : (40 : ℚ) ≤ womens_val d := by
      simp only [womens_val]
      have h2 : (0 : ℚ) ≤ (d : ℚ) / 30 := by
        apply div_nonneg _ (by norm_num)
        exact_mod_cast hd0
      linarith
    exact le_int_trunc 40 (womens_val d) (by exact_mod_cast hv)
      (le_trans (by norm_num) hv)

set_option maxRecDepth 4000 in
/-- C10 witness: the first grid date. -/
theorem claim_C10_witness :
    20 ≤ (sampleRow 0).tenniscore ∧ 30 ≤ (sampleRow 0).soccer_jersey ∧
      40 ≤ (sampleRow 0).womens_activewear :=
  claim_C10 0 (by decide)

/-! Claims C3 and C6: the market merger. -/

/-- Year column of the merged table. -/
theorem load_market_years (a b : MarketTableIn) :
    (load_market_data a b).map (fun r => r.year) = mergedYears a b := by
  simp only [load_market_data, List.map_map]
  exact List.map_id (mergedYears a b)

/-- The merged year column has no duplicates. -/
theorem mergedYears_nodup (a b : MarketTableIn) : (mergedYears a b).Nodup :=
  ((List.perm_insertionSort _ _).nodup_iff).mpr (List.nodup_dedup _)

/-- Membership in the merged year column is membership in either input. -/
theorem mem_mergedYears (a b : MarketTableIn) (y : ℤ) :
    y ∈ mergedYears a b ↔
      y ∈ a.rows.map Prod.fst ∨ y ∈ b.rows.map Prod.fst := by
  unfold mergedYears
  rw [(List.perm_insertionSort _ _).mem_iff]
  simp [List.mem_dedup, List.mem_append]

/-- For a year absent from one input, that input contributes a full row
of nulls. -/
theorem sideVals_not_mem (t : MarketTableIn) (y : ℤ)
    (h : y ∉ t.rows.map Prod.fst) :
    sideVals t y = List.replicate t.width none := by
  unfold sideVals
  have hf : t.rows.find? (fun r => decide (r.1 = y)) = none := by
    rw [List.find?_eq_none]
    intro x hx
    simp only [decide_eq_true_eq]
    intro he
    exact h (List.mem_map.mpr ⟨x, hx, he⟩)
  rw [hf]

/-- C3 (confirmed): the outer merge keys its rows by exactly the union
of the years of the two inputs, with one row per year, and a year
present in only one input gets a full block of nulls for the other
input's columns; the scenario with years 2023, 2024, 2033 and
2024, 2025 gives the four expected rows with the jersey columns null for
2023 and 2033. -/
theorem claim_C3 :
    (∀ (a b : MarketTableIn),
      (a.rows.map Prod.fst).Nodup → (b.rows.map Prod.fst).Nodup →
      ((load_market_data a b).map (fun r => r.year)).Nodup ∧
      (∀ y : ℤ, y ∈ (load_market_data a b).map (fun r => r.year) ↔
        y ∈ a.rows.map Prod.fst ∨ y ∈ b.rows.map Prod.fst) ∧
      (∀ row ∈ load_market_data a b,
        (row.year ∉ b.rows.map Prod.fst →
          row.right = List.replicate b.width none) ∧
        (row.year ∉ a.rows.map Prod.fst →
          row.left = List.replicate a.width none))) ∧
    load_market_data spScenario jScenario =
      [⟨2023, [some 3], [none, none]⟩,
       ⟨2024, [some 4], [some 1, some 2]⟩,
       ⟨2025, [none], [some 5, none]⟩,
       ⟨2033, [some 8], [none, none]⟩] := by
  constructor
  · intro a b _ _
    refine ⟨?_, ?_, ?_⟩
    · rw [load_market_years]
      exact mergedYears_nodup a b
    · intro y
      rw [load_market_years]
      exact mem_mergedYears a b y
    · intro row hrow
      obtain ⟨y, hy, rfl⟩ := List.mem_map.mp hrow
      exact ⟨fun h => sideVals_not_mem b y h, fun h => sideVals_not_mem a y h⟩
  · decide

/-- C3 witness: the scenario inputs satisfy the no-duplicate-key
hypotheses and the merged year column is duplicate-free. -/
theorem claim_C3_witness :
    ((spScenario.rows.map Prod.fst).Nodup ∧
      (jScenario.rows.map Prod.fst).Nodup) ∧
    ((load_market_data spScenario jScenario).map (fun r => r.year)).Nodup :=
  ⟨⟨by decide, by decide⟩,
   (claim_C3.1 spScenario jScenario (by decide) (by decide)).1⟩

/-- C6 (confirmed): the outer merge is commutative up to column
ordering: merging the two inputs in either order yields the same rows in
the same order, with the two cell blocks swapped. -/
theorem claim_C6 (a b : MarketTableIn)
    (_ha : (a.rows.map Prod.fst).Nodup)
    (_hb : (b.rows.map Prod.fst).Nodup) :
    load_market_data a b =
      (load_market_data b a).map (fun r => ⟨r.year, r.right, r.left⟩) := by
  have hkeys : mergedYears a b = mergedYears b a := by
    apply List.eq_of_perm_of_sorted ?_ (List.sorted_insertionSort _ _)
      (List.sorted_insertionSort _ _)
    refine ((List.perm_insertionSort _ _).trans ?_).trans
      (List.perm_insertionSort _ _).symm
    apply (List.perm_ext_iff_of_nodup (List.nodup_dedup _)
      (List.nodup_dedup _)).mpr
    intro y
    simp [List.mem_dedup, List.mem_append, or_comm]
  unfold load_market_data
  rw [hkeys, List.map_map]
  apply List.map_congr_left
  intro y _
  rfl

/-- C6 witness: the scenario inputs. -/
theorem claim_C6_witness :
    ((spScenario.rows.map Prod.fst).Nodup ∧
      (jScenario.rows.map Prod.fst).Nodup) ∧
    load_market_data spScenario jScenario =
      (load_market_data jScenario spScenario).map
        (fun r => ⟨r.year, r.right, r.left⟩) :=
  ⟨⟨by decide, by decide⟩,
   claim_C6 spScenario jScenario (by decide) (by decide)⟩

/-! Claim C9. -/

/-- The code's current-soccer expression computes the claim's mean. -/
theorem current_soccer_eq_mean (t : List TrendsRow) :
    current_soccer t = meanSoccerAfterCutoff t := by
  simp only [current_soccer, meanSoccerAfterCutoff]
  rcases h : t.filter (fun r => decide ((1096 : ℤ) ≤ r.date)) with _ | ⟨x, xs⟩ <;>
    simp [h]

/-- C9 (confirmed): whenever the summary derivation succeeds, its
soccer_jersey_trend_current field is the arithmetic mean of the
soccer_jersey column over exactly the rows dated on or after 2026-01-01,
and it is NaN (none) when no row matches; moreover whether the
derivation succeeds does not depend on the trends table at all, so an
empty date selection can never turn the derivation into an error. -/
theorem claim_C9 (tc : List LongRow) (mk : List MergedRow)
    (tr tr2 : List TrendsRow) :
    ((summary_core tc mk tr).isOk = (summary_core tc mk tr2).isOk) ∧
    (∀ s, summary_core tc mk tr = .ok s →
      s.soccer_jersey_trend_current = meanSoccerAfterCutoff tr ∧
      (tr.filter (fun r => decide ((1096 : ℤ) ≤ r.date)) = [] →
        s.soccer_jersey_trend_current = none)) := by
  constructor
  · simp only [summary_core]
    cases (nlargest_by_yoy tc).head? <;>
      cases mk.find? (fun r => decide (r.year = 2024)) <;>
      cases mk.find? (fun r => decide (r.year = 2033)) <;> rfl
  · intro s hs
    simp only [summary_core] at hs
    rcases h1 : (nlargest_by_yoy tc).head? with _ | top <;> rw [h1] at hs
    · exact absurd hs (by simp)
    rcases h2 : mk.find? (fun r => decide (r.year = 2024)) with _ | r24 <;>
      rw [h2] at hs
    · exact absurd hs (by simp)
    rcases h3 : mk.find? (fun r => decide (r.year = 2033)) with _ | r33 <;>
      rw [h3] at hs
    · exact absurd hs (by simp)
    injection hs with h
    subst h
    refine ⟨current_soccer_eq_mean tr, ?_⟩
    intro hf
    rw [current_soccer_eq_mean tr]
    simp [meanSoccerAfterCutoff, hf]

/-- C9 witness: with one clean sales row and the scenario market table,
the summary on an empty trends table succeeds with a NaN current-soccer
field, and the success status matches the one on a nonempty (but
pre-cutoff) trends table. -/
theorem claim_C9_witness :
    sC9.soccer_jersey_trend_current = meanSoccerAfterCutoff [] ∧
    (summary_core [lrScenario] mkScenario []).isOk =
      (summary_core [lrScenario] mkScenario [trOld]).isOk :=
  ⟨((claim_C9 [lrScenario] mkScenario [] [trOld]).2 sC9 rfl).1,
   (claim_C9 [lrScenario] mkScenario [] [trOld]).1⟩

/-! Claim C4. -/

/-- C4 (corrected): the summary derivation fails with RowNotFound
whenever the merged market table has no year-2024 row or no year-2033
row; conversely, when both rows exist the derivation succeeds with the
market fields taken from the first matching rows, but only provided the
sales table has at least one row with a present yoy_growth_pct (the
top-items lookup runs first and fails on an empty selection). -/
theorem claim_C4 (tc : List LongRow) (mk : List MergedRow)
    (tr : List TrendsRow) :
    ((mk.find? (fun r => decide (r.year = 2024)) = none ∨
      mk.find? (fun r => decide (r.year = 2033)) = none) →
      summary_core tc mk tr = .error .RowNotFound) ∧
    (∀ r24 r33, mk.find? (fun r => decide (r.year = 2024)) = some r24 →
      mk.find? (fun r => decide (r.year = 2033)) = some r33 →
      (∃ row ∈ tc, row.yoy_growth_pct.isSome = true) →
      ∃ s, summary_core tc mk tr = .ok s ∧
        s.market_2024_billion = market_value_billion_usd r24 ∧
        s.market_2033_billion = market_value_billion_usd r33) := by
  constructor
  · intro h
    simp only [summary_core]
    cases hh : (nlargest_by_yoy tc).head? with
    | none => rfl
    | some top =>
      rcases h with h24 | h33
      · rw [h24]
      · cases hf : mk.find? (fun r => decide (r.year = 2024)) with
        | none => rfl
        | some r => rw [h33]
  · intro r24 r33 h24 h33 hex
    have hhead : ∃ top, (nlargest_by_yoy tc).head? = some top := by
      cases hcase : (nlargest_by_yoy tc).head? with
      | some t => exact ⟨t, rfl⟩
      | none =>
        exfalso
        obtain ⟨row, hrow, hsome⟩ := hex
        have hmem : row ∈ tc.filter (fun r => r.yoy_growth_pct.isSome) :=
          List.mem_filter.mpr ⟨hrow, hsome⟩
        have hnil : nlargest_by_yoy tc = [] :=
          List.head?_eq_none_iff.mp hcase
        have hsort : List.insertionSort
            (fun a b =>
              (b.yoy_growth_pct.getD 0) ≤ (a.yoy_growth_pct.getD 0))
            (tc.filter (fun r => r.yoy_growth_pct.isSome)) = [] := by
          rcases List.take_eq_nil_iff.mp hnil with h5 | h0
          · exact absurd h5 (by norm_num)
          · exact h0
        have hlen := (List.perm_insertionSort
            (fun a b : LongRow =>
              (b.yoy_growth_pct.getD 0) ≤ (a.yoy_growth_pct.getD 0))
            (tc.filter (fun r => r.yoy_growth_pct.isSome))).length_eq
        rw [hsort] at hlen
        rw [List.eq_nil_of_length_eq_zero hlen.symm] at hmem
        exact absurd hmem (List.not_mem_nil row)
    obtain ⟨top, htop⟩ := hhead
    refine ⟨{ tenniscore_peak_growth := top.yoy_growth_pct
            , market_2024_billion := market_value_billion_usd r24
            , market_2033_billion := market_value_billion_usd r33
            , market_growth_rate := 7
            , tenniscore_search_peak :=
                (tr.map (fun r => r.tenniscore)).max?
            , soccer_jersey_trend_current := current_soccer tr
            , challengers_media_value_million := 85 / 2 }, ?_, rfl, rfl⟩
    simp only [summary_core, htop, h24, h33]

/-- C4 counterexample: with the scenario market table (which has both a
2024 and a 2033 row) and an empty sales table the derivation does not
succeed, against the claim's unconditional success case: the top-items
lookup hits an empty selection first. -/
theorem claim_C4_counterexample :
    errOf (summary_core [] mkScenario []) = some .RowNotFound ∧
    (mkScenario.find? (fun r => decide (r.year = 2024))).isSome = true ∧
    (mkScenario.find? (fun r => decide (r.year = 2033))).isSome = true := by
  refine ⟨rfl, rfl, rfl⟩

/-- C4 witness: the scenario market table together with one clean sales
row, exercising both the failure direction (restricted market table) and
the success direction. -/
theorem claim_C4_witness :
    summary_core [lrScenario] [] [] = .error .RowNotFound ∧
    (∃ s, summary_core [lrScenario] mkScenario [] = .ok s ∧
      s.market_2024_billion =
        market_value_billion_usd ⟨2024, [some 4], [some 1, some 2]⟩ ∧
      s.market_2033_billion =
        market_value_billion_usd ⟨2033, [some 8], [none, none]⟩) :=
  ⟨(claim_C4 [lrScenario] [] []).1 (Or.inl rfl),
   (claim_C4 [lrScenario] mkScenario []).2
     ⟨2024, [some 4], [some 1, some 2]⟩ ⟨2033, [some 8], [none, none]⟩
     (by decide) (by decide) ⟨lrScenario, by decide, by decide⟩⟩

/-! Claim C7. -/

/-- C7 (corrected): process_all runs its five steps strictly in
sequence with no error isolation: on full success all five files are
written, and on any failure the written files are exactly a proper
prefix of the write list, so every step after the failing one is never
attempted. -/
theorem claim_C7 (salesIn : Option (List RawSalesRow))
    (spIn jIn : Option MarketTableIn) (trIn : Option (List TrendsRow))
    (chIn : Option (List ChallengersRow)) :
    ((process_all salesIn spIn jIn trIn chIn).2.isOk = true →
      (process_all salesIn spIn jIn trIn chIn).1 = processedFiles) ∧
    ((process_all salesIn spIn jIn trIn chIn).2.isOk = false →
      ∃ n < 5, (process_all salesIn spIn jIn trIn chIn).1 =
        processedFiles.take n) := by
  unfold process_all
  cases load_tenniscore_sales_io salesIn with
  | error e =>
    exact ⟨fun h => by simp [Except.isOk, Except.toBool] at h, fun _ => ⟨0, by norm_num, rfl⟩⟩
  | ok tenniscore =>
    cases load_market_data_io spIn jIn with
    | error e =>
      exact ⟨fun h => by simp [Except.isOk, Except.toBool] at h,
        fun _ => ⟨1, by norm_num, rfl⟩⟩
    | ok market =>
      cases load_trends_data_io trIn with
      | error e =>
        exact ⟨fun h => by simp [Except.isOk, Except.toBool] at h,
          fun _ => ⟨2, by norm_num, rfl⟩⟩
      | ok trends =>
        cases load_challengers_impact_io chIn with
        | error e =>
          exact ⟨fun h => by simp [Except.isOk, Except.toBool] at h,
            fun _ => ⟨3, by norm_num, rfl⟩⟩
        | ok challengers =>
          cases create_summary_stats_io salesIn spIn jIn trIn with
          | error e =>
            exact ⟨fun h => by simp [Except.isOk, Except.toBool] at h,
              fun _ => ⟨4, by norm_num, rfl⟩⟩
          | ok summary =>
            exact ⟨fun _ => rfl, fun h => by simp [Except.isOk, Except.toBool] at h⟩

/-- C7 counterexample: with a missing trends file and every other input
present and processable, process_all stops after writing the first two
files; the challengers table would load successfully on its own, yet its
derivation and write were never attempted. -/
theorem claim_C7_counterexample :
    (process_all (some scenarioSales) (some spScenario) (some jScenario)
      none (some chScenario)).1 =
      ["tenniscore_processed.csv", "market_combined.csv"] ∧
    errOf (process_all (some scenarioSales) (some spScenario)
      (some jScenario) none (some chScenario)).2 = some .FileNotFound ∧
    (load_challengers_impact_io (some chScenario)).isOk = true ∧
    "challengers_processed.csv" ∉
      (process_all (some scenarioSales) (some spScenario) (some jScenario)
        none (some chScenario)).1 := by
  refine ⟨rfl, rfl, rfl, by decide⟩

/-- C7 witness: a fully processable input set makes process_all write
all five files. -/
theorem claim_C7_witness :
    (process_all (some scenarioSales) (some spScenario) (some jScenario)
      (some []) (some chScenario)).2.isOk = true ∧
    (process_all (some scenarioSales) (some spScenario) (some jScenario)
      (some []) (some chScenario)).1 = processedFiles :=
  ⟨rfl,
   (claim_C7 (some scenarioSales) (some spScenario) (some jScenario)
     (some []) (some chScenario)).1 rfl⟩

/-! Claim C5: the round-trip law. -/

/-- Zipping four maps of the same list zips pointwise. -/
theorem zip4_map {α β : Type} (f1 f2 f3 f4 : α → β) (l : List α) :
    zip4 (l.map f1) (l.map f2) (l.map f3) (l.map f4) =
      l.map (fun r => (f1 r, f2 r, f3 r, f4 r)) := by
  induction l with
  | nil => rfl
  | cons a t ih => simp [zip4, ih]

/-- Group extraction distributes over concatenation. -/
theorem groupVals_append (l1 l2 : List LongRow) (k : WideKey) (n : String) :
    groupVals (l1 ++ l2) k n = groupVals l1 k n ++ groupVals l2 k n := by
  simp [groupVals, List.filter_append]

/-- Inside the block of its own demographic, group extraction picks the
input rows with the right key, in order. -/
theorem groupVals_bld_self (df : List RawSalesRow) (name : String)
    (acc : RawSalesRow → Option ℚ) (k : WideKey) :
    groupVals (df.map (bldLong name acc)) k name =
      (df.filter (fun r => decide (rawKey r = k))).map acc := by
  simp only [groupVals, List.filter_map, List.map_map]
  congr 1
  apply List.filter_congr
  intro r _
  simp [Function.comp, bldLong, keyOf, rawKey]

/-- A block contributes nothing to the groups of another demographic. -/
theorem groupVals_bld_ne (df : List RawSalesRow) (name : String)
    (acc : RawSalesRow → Option ℚ) (k : WideKey) (n : String)
    (h : name ≠ n) :
    groupVals (df.map (bldLong name acc)) k n = [] := by
  simp only [groupVals, List.filter_map, List.map_map]
  have hfalse : ∀ r ∈ df,
      ((fun row => decide (keyOf row = k) && decide (row.demographic = n)) ∘
        bldLong name acc) r = false := by
    intro r _
    simp [Function.comp, bldLong, keyOf, h]
  rw [List.filter_congr hfalse]
  simp

/-- Flattening the per-key blocks of a keyed partition back together is
a permutation of the partitioned list, provided the key list has no
duplicates and covers every row. -/
theorem partition_perm (ks : List WideKey) :
    ∀ df : List RawSalesRow, ks.Nodup → (∀ r ∈ df, rawKey r ∈ ks) →
      List.Perm
        (ks.flatMap (fun k => df.filter (fun r => decide (rawKey r = k))))
        df := by
  induction ks with
  | nil =>
    intro df _ hcov
    cases df with
    | nil => simp
    | cons r t =>
      exact absurd (hcov r (List.mem_cons_self r t)) (List.not_mem_nil _)
  | cons k ks ih =>
    intro df hnd hcov
    have hnd2 := List.nodup_cons.mp hnd
    rw [List.flatMap_cons]
    have hblocks : ∀ k2 ∈ ks,
        df.filter (fun r => decide (rawKey r = k2)) =
          (df.filter (fun r => ! decide (rawKey r = k))).filter
            (fun r => decide (rawKey r = k2)) := by
      intro k2 hk2
      rw [List.filter_filter]
      apply List.filter_congr
      intro r _
      by_cases h : rawKey r = k2
      · have hne : rawKey r ≠ k := by
          rw [h]
          intro he
          exact hnd2.1 (he ▸ hk2)
        simp [h, hne]
        exact fun he => hne (h.trans he)
      · simp [h]
    rw [List.flatMap_congr hblocks]
    have hcov2 : ∀ r ∈ df.filter (fun r => ! decide (rawKey r = k)),
        rawKey r ∈ ks := by
      intro r hr
      obtain ⟨hrdf, hrp⟩ := List.mem_filter.mp hr
      rcases List.mem_cons.mp (hcov r hrdf) with he | hm
      · exfalso
        simp only [Bool.not_eq_eq_eq_not, Bool.not_true,
          decide_eq_false_iff_not] at hrp
        exact hrp he
      · exact hm
    have hperm := ih (df.filter (fun r => ! decide (rawKey r = k)))
      hnd2.2 hcov2
    exact (hperm.append_left _).trans (List.filter_append_perm _ df)

/-- C5 (corrected): unpivoting and re-pivoting reconstructs the input up
to row order for inputs with no missing cell in any column; missing
demographic cells are not the only obstruction, a missing pass-through
cell also breaks the law because dropna removes the whole melted row. -/
theorem claim_C5 (df : List RawSalesRow)
    (hall : ∀ r ∈ df, allPresent r = true) :
    List.Perm (repivot (load_tenniscore_sales df)) df := by
  have hfields : ∀ r ∈ df, r.category.isSome = true ∧ r.item.isSome = true ∧
      r.yoy_growth_pct.isSome = true ∧ r.gen_z_growth_pct.isSome = true ∧
      r.millennial_growth_pct.isSome = true ∧
      r.gen_x_growth_pct.isSome = true ∧
      r.baby_boomer_growth_pct.isSome = true := by
    intro r hr
    have h := hall r hr
    simp only [allPresent, Bool.and_eq_true] at h
    tauto
  have hblock : ∀ (name : String) (acc : RawSalesRow → Option ℚ),
      (∀ r ∈ df, (acc r).isSome = true) →
      demoBlock name acc df = df.map (bldLong name acc) := by
    intro name acc hs
    unfold demoBlock bldLong
    rw [List.filter_eq_self.mpr]
    intro r hr
    obtain ⟨h1, h2, h3, _, _, _, _⟩ := hfields r hr
    simp [h1, h2, h3, hs r hr]
  have hload : load_tenniscore_sales df =
      df.map (bldLong "gen_z" (fun r => r.gen_z_growth_pct)) ++
      df.map (bldLong "millennial" (fun r => r.millennial_growth_pct)) ++
      df.map (bldLong "gen_x" (fun r => r.gen_x_growth_pct)) ++
      df.map (bldLong "baby_boomer" (fun r => r.baby_boomer_growth_pct)) := by
    rw [load_eq_blocks df,
      hblock "gen_z" _ (fun r hr => (hfields r hr).2.2.2.1),
      hblock "millennial" _ (fun r hr => (hfields r hr).2.2.2.2.1),
      hblock "gen_x" _ (fun r hr => (hfields r hr).2.2.2.2.2.1),
      hblock "baby_boomer" _ (fun r hr => (hfields r hr).2.2.2.2.2.2)]
  have hkeysmap : (load_tenniscore_sales df).map keyOf =
      df.map rawKey ++ df.map rawKey ++ df.map rawKey ++ df.map rawKey := by
    rw [hload]
    simp only [List.map_append, List.map_map]
    rfl
  have hkcov : ∀ r ∈ df,
      rawKey r ∈ ((load_tenniscore_sales df).map keyOf).dedup := by
    intro r hr
    rw [List.mem_dedup, hkeysmap]
    simp only [List.mem_append, List.mem_map]
    exact Or.inl (Or.inl (Or.inl ⟨r, hr, rfl⟩))
  have hrep : repivot (load_tenniscore_sales df) =
      ((load_tenniscore_sales df).map keyOf).dedup.flatMap
        (fun k => df.filter (fun r => decide (rawKey r = k))) := by
    unfold repivot
    apply List.flatMap_congr
    intro k _
    rw [hload]
    rw [groupVals_append, groupVals_append, groupVals_append,
        groupVals_append, groupVals_append, groupVals_append,
        groupVals_append, groupVals_append, groupVals_append,
        groupVals_append, groupVals_append, groupVals_append]
    rw [groupVals_bld_self df "gen_z" (fun r => r.gen_z_growth_pct) k,
        groupVals_bld_self df "millennial"
          (fun r => r.millennial_growth_pct) k,
        groupVals_bld_self df "gen_x" (fun r => r.gen_x_growth_pct) k,
        groupVals_bld_self df "baby_boomer"
          (fun r => r.baby_boomer_growth_pct) k]
    rw [groupVals_bld_ne df "millennial" _ k "gen_z" (by decide),
        groupVals_bld_ne df "gen_x" _ k "gen_z" (by decide),
        groupVals_bld_ne df "baby_boomer" _ k "gen_z" (by decide),
        groupVals_bld_ne df "gen_z" _ k "millennial" (by decide),
        groupVals_bld_ne df "gen_x" _ k "millennial" (by decide),
        groupVals_bld_ne df "baby_boomer" _ k "millennial" (by decide),
        groupVals_bld_ne df "gen_z" _ k "gen_x" (by decide),
        groupVals_bld_ne df "millennial" _ k "gen_x" (by decide),
        groupVals_bld_ne df "baby_boomer" _ k "gen_x" (by decide),
        groupVals_bld_ne df "gen_z" _ k "baby_boomer" (by decide),
        groupVals_bld_ne df "millennial" _ k "baby_boomer" (by decide),
        groupVals_bld_ne df "gen_x" _ k "baby_boomer" (by decide)]
    simp only [List.append_nil, List.nil_append]
    rw [zip4_map, List.map_map]
    have hid : ∀ r ∈ df.filter (fun r => decide (rawKey r = k)),
        ((fun v : Option ℚ × Option ℚ × Option ℚ × Option ℚ =>
            (⟨k.category, k.item, k.yoy_growth_pct, v.1, v.2.1, v.2.2.1,
              v.2.2.2⟩ : RawSalesRow)) ∘
          (fun r : RawSalesRow =>
            (r.gen_z_growth_pct, r.millennial_growth_pct,
              r.gen_x_growth_pct, r.baby_boomer_growth_pct))) r = r := by
      intro r hr
      have hrk : rawKey r = k :=
        of_decide_eq_true (List.mem_filter.mp hr).2
      subst hrk
      rfl
    rw [List.map_congr_left hid]
    simp
  rw [hrep]
  exact partition_perm _ df (List.nodup_dedup _) hkcov

/-- C5 counterexample: a one-row input with all four demographic cells
present but a missing yoy_growth_pct.  Unpivoting drops all four melted
rows, so re-pivoting yields an empty table and cannot reconstruct the
input, although the claim's hypothesis (no missing demographic values)
holds. -/
theorem claim_C5_counterexample :
    ¬ List.Perm (repivot (load_tenniscore_sales [cxSalesRow])) [cxSalesRow] ∧
    [cxSalesRow].all demosPresent = true := by
  constructor
  · intro h
    have h0 : repivot (load_tenniscore_sales [cxSalesRow]) = [] := rfl
    rw [h0] at h
    have hlen := h.length_eq
    simp at hlen
  · decide

/-- C5 witness: the round trip on a concrete two-row table with no
missing cells. -/
theorem claim_C5_witness :
    cx2Sales.all allPresent = true ∧
    List.Perm (repivot (load_tenniscore_sales cx2Sales)) cx2Sales :=
  ⟨by decide, claim_C5 cx2Sales (by decide)⟩

end SportsFashion
